import Mathlib

/-!
Verification development for the IRMA server session core
(`server/irmaserver/helpers.go`, `server/irmaserver/sessions.go`, `messages.go`).

The Go code is shallowly embedded: pure functions become Lean functions,
stateful methods become functions from the session value to an updated
session value, wall-clock time is passed explicitly as an integer number of
nanoseconds (Go's `time.Duration` unit), and fallible operations return
`Except`.  Cryptographic primitives (SHA-256, random token generation) are
external collaborators and enter as parameters.
-/

namespace IrmaServer

/-- `irma.ProtocolVersion` (messages.go): a major/minor pair. -/
structure ProtocolVersion where
  major : Int
  minor : Int
deriving DecidableEq

/-- `(*ProtocolVersion).Below` (messages.go): strict lexicographic order. -/
def ProtocolVersion.below (v w : ProtocolVersion) : Bool :=
  v.major < w.major || (v.major == w.major && v.minor < w.minor)

/-- `(*ProtocolVersion).Above` (messages.go). -/
def ProtocolVersion.above (v w : ProtocolVersion) : Bool :=
  v.major > w.major || (v.major == w.major && v.minor > w.minor)

/-- Minimum of two protocol versions in the order induced by `below`. -/
def ProtocolVersion.vmin (v w : ProtocolVersion) : ProtocolVersion :=
  if v.below w then v else w

/-- `minProtocolVersion = irma.NewVersion(2, 4)` (sessions.go). -/
def minProtocolVersion : ProtocolVersion := ⟨2, 4⟩

/-- `maxProtocolVersion = irma.NewVersion(2, 8)` (sessions.go). -/
def maxProtocolVersion : ProtocolVersion := ⟨2, 8⟩

/-- `irma.ServerStatus` (messages.go): the six session statuses. -/
inductive ServerStatus
  | initialized
  | pairing
  | connected
  | cancelled
  | done
  | timeout
deriving DecidableEq

/-- `(ServerStatus).Finished()` (messages.go). -/
def ServerStatus.finished : ServerStatus → Bool
  | .done => true
  | .cancelled => true
  | .timeout => true
  | _ => false

/-- One second in Go `time.Duration` units (nanoseconds). -/
def second : Int := 1000000000

/-- One minute in Go `time.Duration` units. -/
def minute : Int := 60 * second

/-- `maxSessionLifetime = 5 * time.Minute` (sessions.go). -/
def maxSessionLifetime : Int := 5 * minute

/-- `retryTimeLimit = 10 * time.Second` (helpers.go). -/
def retryTimeLimit : Int := 10 * second

/-- `responseCache` (sessions.go): the per-session idempotence buffer.
Byte slices are lists of bytes. -/
structure ResponseCache where
  endpoint : String
  message : List Nat
  response : List Nat
  status : Int
  sessionStatus : ServerStatus
deriving DecidableEq

/-- The zero `responseCache{}` value assigned on a cache miss. -/
def emptyResponseCache : ResponseCache :=
  { endpoint := "", message := [], response := [], status := 0,
    sessionStatus := ServerStatus.initialized }

/-- `irma.SessionOptions`: pairing method, pairing code, LD context. -/
structure SessionOptions where
  ldContext : String
  pairingMethod : String
  pairingCode : String
deriving DecidableEq

/-- `irma.PairingMethodNone`. -/
def pairingMethodNone : String := "none"

/-- `irma.PairingMethodPin`. -/
def pairingMethodPin : String := "pin"

/-- One credential of an issuance request, with the fields `getRequest`
manipulates (`RevocationKey`, `RevocationSupported`) and an abstract rest. -/
structure CredentialRequest where
  payload : String
  revocationKey : String
  revocationSupported : Bool
deriving DecidableEq

/-- `irma.SessionRequest`: a disclosure, signature or issuance request.
Payloads not inspected by the embedded code are abstracted to strings. -/
inductive SessionRequest
  | disclosure (payload : String)
  | signature (payload : String)
  | issuance (credentials : List CredentialRequest)
deriving DecidableEq

/-- `sessionData` (sessions.go), restricted to the fields the embedded
operations read or write.  `resultStatus` is `Result.Status`;
`clientTimeout`, `revocation` and `nextSession` are the fields of
`Rrequest.Base()` / `Rrequest.SessionRequest().Base()` consulted by the
embedded code (`ClientTimeout` in seconds, the `Revocation` list, and the
`NextSession` pointer). -/
structure SessionData where
  action : String
  requestorToken : String
  clientToken : String
  version : Option ProtocolVersion
  request : SessionRequest
  legacyCompatible : Bool
  status : ServerStatus
  prevStatus : ServerStatus
  responseCache : ResponseCache
  lastActive : Int
  resultStatus : ServerStatus
  clientTimeout : Int
  revocation : List String
  nextSession : Option String
  frontendAuth : String
  options : SessionOptions
  clientAuth : String
deriving DecidableEq

/-- `(*sessionData).setStatus` (helpers.go): writes `Status` and
`Result.Status` (the result callback performs no session writes). -/
def setStatus (s : SessionData) (st : ServerStatus) : SessionData :=
  { s with status := st, resultStatus := st }

/-- `(*sessionData).markAlive` (helpers.go): `LastActive = time.Now()`. -/
def markAlive (now : Int) (s : SessionData) : SessionData :=
  { s with lastActive := now }

/-- `(*sessionData).pairingCompleted` (helpers.go).  The Go method mutates
its receiver only in the `ServerStatusPairing` branch; we return the error
(if any) together with the resulting session. -/
def pairingCompleted (s : SessionData) : Option String × SessionData :=
  if s.status = ServerStatus.pairing then
    (none, setStatus s ServerStatus.connected)
  else
    (some "Pairing was not enabled", s)

/-- `(*sessionData).fail` (helpers.go): replaces `Result` by a fresh result
with status `CANCELLED` and then calls `setStatus(CANCELLED)`;
unconditionally in every current status. -/
def fail (s : SessionData) : SessionData :=
  setStatus s ServerStatus.cancelled

/-- The effective minimum session protocol version computed at the top of
`chooseProtocolVersion` (helpers.go).  `acceptInsecure` and `minSecure`
stand for the package globals `AcceptInsecureProtocolVersions` and
`minSecureProtocolVersion`, which are declared outside the provided
sources. -/
def effectiveMinVersion (acceptInsecure : Bool) (minSecure : ProtocolVersion)
    (s : SessionData) : ProtocolVersion :=
  if acceptInsecure then
    let m1 := if s.legacyCompatible then minProtocolVersion else ⟨2, 5⟩
    let m2 := if s.revocation.length > 0 then ⟨2, 6⟩ else m1
    if s.nextSession.isSome then ⟨2, 7⟩ else m2
  else
    minSecure

/-- Modelled from the spec: the package globals
`AcceptInsecureProtocolVersions` and `minSecureProtocolVersion` are not in
the provided sources; §4.3 of the spec states the feature → minimum-version
mapping unconditionally, which corresponds to
`AcceptInsecureProtocolVersions = true` (making `minSecureProtocolVersion`
irrelevant). -/
def acceptInsecureProtocolVersionsSpec : Bool := true

/-- `(*sessionData).chooseProtocolVersion` (helpers.go). -/
def chooseProtocolVersion (acceptInsecure : Bool) (minSecure : ProtocolVersion)
    (s : SessionData) (minClient maxClient : ProtocolVersion) :
    Option ProtocolVersion :=
  let minSession := effectiveMinVersion acceptInsecure minSecure s
  if minClient.above maxProtocolVersion || maxClient.below minSession
      || maxClient.below minClient then
    none
  else if maxClient.above maxProtocolVersion then
    some maxProtocolVersion
  else
    some maxClient

lemma if_above_eq_vmin (v w : ProtocolVersion) :
    (if v.above w then w else v) = v.vmin w := by
  rcases v with ⟨a, b⟩
  rcases w with ⟨c, d⟩
  simp only [ProtocolVersion.above, ProtocolVersion.below, ProtocolVersion.vmin,
    Bool.or_eq_true, Bool.and_eq_true, decide_eq_true_eq, beq_iff_eq]
  split_ifs with h1 h2 h2 <;>
    first
      | rfl
      | (exfalso; omega)
      | (simp only [ProtocolVersion.mk.injEq]; omega)

/-- `(*sessionData).checkCache` (helpers.go): returns `(status, response)`
and the (possibly reset) session.  `hash` stands for `sha256.Sum256`; the Go
code compares the two digests, so the behaviour depends only on digest
equality.  The Go condition `session.LastActive.Before(now.Add(-retryTimeLimit))`
becomes `s.lastActive < now - retryTimeLimit`. -/
def checkCache (hash : List Nat → List Nat) (now : Int) (s : SessionData)
    (endpoint : String) (message : List Nat) : Int × List Nat × SessionData :=
  if s.responseCache.endpoint ≠ endpoint
      ∨ s.responseCache.response.length = 0
      ∨ s.responseCache.sessionStatus ≠ s.status
      ∨ s.lastActive < now - retryTimeLimit
      ∨ hash s.responseCache.message ≠ hash message then
    (0, [], { s with responseCache := emptyResponseCache })
  else
    (s.responseCache.status, s.responseCache.response, s)

/-- The validity condition of a cache entry, as the (amended) spec states
it: endpoint matches, the cached response is non-empty, the session status
equals the recorded status, the entry is at most 10 seconds old, and the
request-body digests coincide. -/
def cacheValid (hash : List Nat → List Nat) (now : Int) (s : SessionData)
    (endpoint : String) (message : List Nat) : Prop :=
  s.responseCache.endpoint = endpoint
    ∧ s.responseCache.response ≠ []
    ∧ s.responseCache.sessionStatus = s.status
    ∧ now - retryTimeLimit ≤ s.lastActive
    ∧ hash s.responseCache.message = hash message

instance (hash : List Nat → List Nat) (now : Int) (s : SessionData)
    (endpoint : String) (message : List Nat) :
    Decidable (cacheValid hash now s endpoint message) := by
  unfold cacheValid
  infer_instance

/-- The §4.1 state machine: INITIALIZED → {PAIRING, CONNECTED},
PAIRING → CONNECTED, and any non-terminal status → any terminal status. -/
def allowedEdge : ServerStatus → ServerStatus → Bool
  | .initialized, .pairing => true
  | .initialized, .connected => true
  | .pairing, .connected => true
  | a, b => !a.finished && b.finished

/-- The expiry adjustment in `redisSessionStore.clientGet` (sessions.go):
a loaded session inactive for more than `maxSessionLifetime` and not yet
finished is marked alive and moved to TIMEOUT. -/
def redisClientGetExpire (now : Int) (s : SessionData) : SessionData :=
  if s.lastActive + maxSessionLifetime < now ∧ ¬ s.status.finished then
    setStatus (markAlive now s) ServerStatus.timeout
  else
    s

/-- The per-session effective timeout computed by
`memorySessionStore.deleteExpired` (sessions.go):
`ClientTimeout` seconds when the session is INITIALIZED with a nonzero
`ClientTimeout`, `maxSessionLifetime` otherwise. -/
def sweepTimeout (s : SessionData) : Int :=
  if s.status = ServerStatus.initialized ∧ s.clientTimeout ≠ 0 then
    s.clientTimeout * second
  else
    maxSessionLifetime

/-- The fate of one session in `memorySessionStore.deleteExpired`
(sessions.go): an expired non-finished session is marked alive and moved to
TIMEOUT; an expired finished session is scheduled for deletion (`none`);
anything else is kept unchanged. -/
def sweepStep (now : Int) (s : SessionData) : Option SessionData :=
  if s.lastActive + sweepTimeout s < now then
    if ¬ s.status.finished then
      some (setStatus (markAlive now s) ServerStatus.timeout)
    else
      none
  else
    some s

/-- `memorySessionStore.deleteExpired` (sessions.go) over the store's
sessions.  Both token indexes of the memory store hold pointers to the same
session objects, so the store is modelled as the list of those objects;
lookup by requestor or client token goes through the respective field. -/
def deleteExpired (now : Int) (store : List SessionData) : List SessionData :=
  store.filterMap (sweepStep now)

/-- The result of `redisSessionStore.add` (sessions.go): the two Redis
`Set` writes (token pointer and session payload) with their TTLs. -/
structure RedisAddResult where
  tokenKey : String
  tokenValue : String
  tokenTTL : Int
  sessionKey : String
  payload : SessionData
  sessionTTL : Int
deriving DecidableEq

/-- The TTL computation at the top of `redisSessionStore.add`
(sessions.go). -/
def redisAddTTL (s : SessionData) : Int :=
  if s.status = ServerStatus.initialized ∧ s.clientTimeout ≠ 0 then
    s.clientTimeout * second
  else if s.status.finished then
    maxSessionLifetime
  else
    2 * maxSessionLifetime

/-- `redisSessionStore.add` (sessions.go): writes
`token:<RequestorToken> ↦ <ClientToken>` and
`session:<ClientToken> ↦ <payload>`, both with the same TTL. -/
def redisAdd (s : SessionData) : RedisAddResult :=
  { tokenKey := "token:" ++ s.requestorToken
    tokenValue := s.clientToken
    tokenTTL := redisAddTTL s
    sessionKey := "session:" ++ s.clientToken
    payload := s
    sessionTTL := redisAddTTL s }

/-- The state of the session's Redis lock as observed by
`redisSessionStore.update`: the lock pointer is nil, the TTL query fails,
or the lock is held with the given remaining TTL. -/
inductive LockState
  | absent
  | checkFails
  | held (ttl : Int)
deriving DecidableEq

/-- A lock that is set, checkable and has nonzero remaining TTL. -/
def lockLive : LockState → Bool
  | .held ttl => ttl ≠ 0
  | _ => false

/-- `redisSessionStore.update` (sessions.go): re-checks lock ownership and
only then persists via `add`. -/
def redisUpdate (lock : LockState) (s : SessionData) :
    Except String RedisAddResult :=
  match lock with
  | .absent => .error "Session lock is not set."
  | .checkFails => .error "Lock cannot be checked."
  | .held ttl =>
      if ttl = 0 then .error "No session lock available."
      else .ok (redisAdd s)

/-- `(*sessionData).updateFrontendOptions` (helpers.go).  `newCode` stands
for the freshly generated `common.NewPairingCode()`. -/
def updateFrontendOptions (s : SessionData) (reqMethod : String)
    (newCode : String) : Except String (SessionOptions × SessionData) :=
  if s.status ≠ ServerStatus.initialized then
    .error "Frontend options can only be updated when session is in initialized state"
  else if reqMethod = "" then
    .ok (s.options, s)
  else if reqMethod = pairingMethodNone then
    let s' := { s with options :=
      { s.options with pairingCode := "", pairingMethod := reqMethod } }
    .ok (s'.options, s')
  else if reqMethod = pairingMethodPin then
    let s' := { s with options :=
      { s.options with pairingCode := newCode, pairingMethod := reqMethod } }
    .ok (s'.options, s')
  else
    .error "Pairing method unknown"

/-- `(*sessionData).getRequest` (helpers.go): issuance requests are deep
copied with `RevocationSupported` derived from `RevocationKey` and the key
itself stripped; other requests are returned as-is. -/
def getRequest : SessionRequest → SessionRequest
  | .issuance credentials =>
      .issuance (credentials.map fun c =>
        { c with revocationSupported := c.revocationKey ≠ "", revocationKey := "" })
  | r => r

/-- `irma.ClientSessionRequest` (wire message): the request field is
optional. -/
structure ClientSessionRequest where
  ldContext : String
  protocolVersion : Option ProtocolVersion
  options : SessionOptions
  request : Option SessionRequest
deriving DecidableEq

/-- `(*sessionData).getClientRequest` (helpers.go): the underlying request
is attached only when the pairing method is `none`. -/
def getClientRequest (s : SessionData) : ClientSessionRequest :=
  { ldContext := "https://irma.app/ld/request/client/v1"
    protocolVersion := s.version
    options := s.options
    request :=
      if s.options.pairingMethod = pairingMethodNone then
        some (getRequest s.request)
      else
        none }

/-- The error kinds written by `pairingMiddleware` (helpers.go). -/
inductive ServerError
  | pairingRequired
  | unexpectedRequest
  | irmaUnauthorized
deriving DecidableEq

/-- Outcome of a middleware: invoke the wrapped handler, or reject. -/
inductive MiddlewareResult
  | invokeHandler
  | reject (e : ServerError)
deriving DecidableEq

/-- `(*Server).pairingMiddleware` (helpers.go), as a function of the
session and the request's `Authorization` header. -/
def pairingMiddleware (s : SessionData) (authHeader : String) :
    MiddlewareResult :=
  if s.status = ServerStatus.pairing then
    .reject .pairingRequired
  else if s.status ≠ ServerStatus.connected then
    .reject .unexpectedRequest
  else if s.clientAuth ≠ authHeader then
    .reject .irmaUnauthorized
  else
    .invokeHandler

/-- A concrete freshly created session (cf. `newSession`, sessions.go),
used to build the concrete instances below. -/
def demoSession : SessionData :=
  { action := "disclosing"
    requestorToken := "R234567890123456789012345"
    clientToken := "C234567890123456789012345"
    version := none
    request := .disclosure "pbdf.pbdf.email.email"
    legacyCompatible := true
    status := ServerStatus.initialized
    prevStatus := ServerStatus.initialized
    responseCache := emptyResponseCache
    lastActive := 0
    resultStatus := ServerStatus.initialized
    clientTimeout := 0
    revocation := []
    nextSession := none
    frontendAuth := "F234567890123456789012345"
    options :=
      { ldContext := "https://irma.app/ld/options/v1"
        pairingMethod := pairingMethodNone
        pairingCode := "" }
    clientAuth := "A234567890123456789012345" }

/-- C1: for every client version window `[minClient, maxClient]`,
`chooseProtocolVersion` fails (returns no version) if and only if
`minClient` is above the server maximum 2.8, or `maxClient` is below the
effective session minimum, or `maxClient` is below `minClient`; in every
other case it returns exactly `min(maxClient, 2.8)`. -/
theorem chooseProtocolVersion_fail_iff_min (acceptInsecure : Bool)
    (minSecure : ProtocolVersion) (s : SessionData)
    (minClient maxClient : ProtocolVersion) :
    (chooseProtocolVersion acceptInsecure minSecure s minClient maxClient = none
      ↔ (minClient.above maxProtocolVersion = true
          ∨ maxClient.below (effectiveMinVersion acceptInsecure minSecure s) = true
          ∨ maxClient.below minClient = true))
    ∧ (¬ (minClient.above maxProtocolVersion = true
          ∨ maxClient.below (effectiveMinVersion acceptInsecure minSecure s) = true
          ∨ maxClient.below minClient = true) →
        chooseProtocolVersion acceptInsecure minSecure s minClient maxClient
          = some (maxClient.vmin maxProtocolVersion)) := by
  unfold chooseProtocolVersion
  by_cases h : (minClient.above maxProtocolVersion
      || maxClient.below (effectiveMinVersion acceptInsecure minSecure s)
      || maxClient.below minClient) = true
  · have hd : minClient.above maxProtocolVersion = true
        ∨ maxClient.below (effectiveMinVersion acceptInsecure minSecure s) = true
        ∨ maxClient.below minClient = true := by
      simpa [Bool.or_eq_true, or_assoc] using h
    refine ⟨?_, fun hc => absurd hd hc⟩
    simp [h, hd]
  · have hd : ¬ (minClient.above maxProtocolVersion = true
        ∨ maxClient.below (effectiveMinVersion acceptInsecure minSecure s) = true
        ∨ maxClient.below minClient = true) := by
      intro hc
      exact h (by simpa [Bool.or_eq_true, or_assoc] using hc)
    rw [if_neg (by simpa using h)]
    refine ⟨?_, fun _ => ?_⟩
    · constructor
      · intro hc
        split_ifs at hc
      · intro hc
        exact absurd hc hd
    · rw [← if_above_eq_vmin]
      split_ifs <;> rfl

/-- Witness for C1 at a concrete window: client `[2.4, 3.0]` against a
default session yields `min(3.0, 2.8) = 2.8`. -/
theorem chooseProtocolVersion_fail_iff_min_witness :
    chooseProtocolVersion true ⟨2, 8⟩ demoSession ⟨2, 4⟩ ⟨3, 0⟩
      = some (ProtocolVersion.vmin ⟨3, 0⟩ maxProtocolVersion) :=
  (chooseProtocolVersion_fail_iff_min true ⟨2, 8⟩ demoSession ⟨2, 4⟩ ⟨3, 0⟩).2
    (by decide)

/-- C2: under the spec-modelled `AcceptInsecureProtocolVersions = true`,
the effective minimum server protocol version used by
`chooseProtocolVersion` is 2.4 for a legacy-compatible session, 2.5 for a
non-legacy-compatible one, 2.6 when non-revocation proofs are required
(non-empty `Revocation` list), and 2.7 when a chained session is
configured (`NextSession` set), later conditions taking precedence. -/
theorem effectiveMinVersion_feature_mapping (minSecure : ProtocolVersion)
    (s : SessionData) :
    effectiveMinVersion acceptInsecureProtocolVersionsSpec minSecure s
      = (if s.nextSession.isSome then ⟨2, 7⟩
         else if s.revocation.length > 0 then ⟨2, 6⟩
         else if s.legacyCompatible then ⟨2, 4⟩
         else ⟨2, 5⟩) := by
  unfold effectiveMinVersion acceptInsecureProtocolVersionsSpec minProtocolVersion
  split_ifs <;> simp_all

/-- A CONNECTED session holding a cache entry whose recorded response is
empty but whose recorded status is 204. -/
def c3Session : SessionData :=
  { demoSession with
    status := ServerStatus.connected
    resultStatus := ServerStatus.connected
    responseCache :=
      { endpoint := "/irma/session/C/proofs"
        message := [1, 2, 3]
        response := []
        status := 204
        sessionStatus := ServerStatus.connected }
    lastActive := 0 }

/-- Counterexample to C3 as stated: at `now = 0` the four claimed validity
conditions all hold for `c3Session` (endpoint matches, digests match,
session status equals the recorded status, entry is 0 s old), yet
`checkCache` does not return the recorded pair `(204, [])` — it returns
status 0, because the code additionally requires a non-empty cached
response. -/
theorem checkCache_claim_counterexample :
    (c3Session.responseCache.endpoint = "/irma/session/C/proofs"
      ∧ id c3Session.responseCache.message = id [1, 2, 3]
      ∧ c3Session.responseCache.sessionStatus = c3Session.status
      ∧ (0 : Int) - retryTimeLimit ≤ c3Session.lastActive)
    ∧ c3Session.responseCache.status = 204
    ∧ (checkCache id 0 c3Session "/irma/session/C/proofs" [1, 2, 3]).1 = 0 := by
  refine ⟨⟨rfl, rfl, rfl, by decide⟩, rfl, by decide⟩

lemma checkCache_miss_iff (hash : List Nat → List Nat) (now : Int)
    (s : SessionData) (endpoint : String) (message : List Nat) :
    (s.responseCache.endpoint ≠ endpoint
        ∨ s.responseCache.response.length = 0
        ∨ s.responseCache.sessionStatus ≠ s.status
        ∨ s.lastActive < now - retryTimeLimit
        ∨ hash s.responseCache.message ≠ hash message)
      ↔ ¬ cacheValid hash now s endpoint message := by
  unfold cacheValid
  rw [List.length_eq_zero]
  constructor
  · rintro (h | h | h | h | h) ⟨h1, h2, h3, h4, h5⟩
    · exact h h1
    · exact h2 h
    · exact h h3
    · omega
    · exact h h5
  · intro hn
    by_contra hc
    push_neg at hc
    obtain ⟨c1, c2, c3, c4, c5⟩ := hc
    exact hn ⟨c1, c2, c3, by omega, c5⟩

/-- C3 (amended): `checkCache` returns the previously recorded
`(status, response)` pair, leaving the session untouched, if and only if
the endpoint matches, the cached response is non-empty, the request-body
digest matches, the session status equals the recorded status, and the
entry is at most 10 seconds old; otherwise it returns `(0, nil)` (and
resets the cache), so the handler is re-executed. -/
theorem checkCache_valid_spec (hash : List Nat → List Nat) (now : Int)
    (s : SessionData) (endpoint : String) (message : List Nat) :
    (cacheValid hash now s endpoint message →
      checkCache hash now s endpoint message
        = (s.responseCache.status, s.responseCache.response, s))
    ∧ (¬ cacheValid hash now s endpoint message →
      checkCache hash now s endpoint message
        = (0, [], { s with responseCache := emptyResponseCache })) := by
  constructor
  · intro hv
    unfold checkCache
    rw [if_neg (fun hc => ((checkCache_miss_iff hash now s endpoint message).mp hc) hv)]
  · intro hv
    unfold checkCache
    rw [if_pos ((checkCache_miss_iff hash now s endpoint message).mpr hv)]

/-- A CONNECTED session holding a valid, non-empty cache entry. -/
def hitSession : SessionData :=
  { demoSession with
    status := ServerStatus.connected
    resultStatus := ServerStatus.connected
    responseCache :=
      { endpoint := "/irma/session/C/proofs"
        message := [1]
        response := [9]
        status := 200
        sessionStatus := ServerStatus.connected }
    lastActive := 0 }

/-- Witness for C3 (amended): a valid entry is replayed verbatim. -/
theorem checkCache_valid_spec_witness :
    checkCache id 0 hitSession "/irma/session/C/proofs" [1]
      = (200, [9], hitSession) := by
  have h := (checkCache_valid_spec id 0 hitSession "/irma/session/C/proofs" [1]).1
    (by constructor <;> simp [hitSession, demoSession, retryTimeLimit, second])
  rw [h]
  rfl

/-- C10: whenever any validity condition fails, `checkCache` returns
`(0, nil)` and resets `ResponseCache` to the empty value, leaving every
other session field unchanged (the result is exactly the input session
with `responseCache` replaced); on a cache hit the session — including
`ResponseCache` — is returned unmodified. -/
theorem checkCache_frame (hash : List Nat → List Nat) (now : Int)
    (s : SessionData) (endpoint : String) (message : List Nat) :
    (¬ cacheValid hash now s endpoint message →
      checkCache hash now s endpoint message
        = (0, [], { s with responseCache := emptyResponseCache }))
    ∧ (cacheValid hash now s endpoint message →
      (checkCache hash now s endpoint message).2.2 = s) := by
  constructor
  · intro hv
    unfold checkCache
    rw [if_pos ((checkCache_miss_iff hash now s endpoint message).mpr hv)]
  · intro hv
    unfold checkCache
    rw [if_neg (fun hc => ((checkCache_miss_iff hash now s endpoint message).mp hc) hv)]

/-- Witness for C10: on a miss (empty cache of a fresh session) the session
comes back with an empty `ResponseCache` and all other fields intact. -/
theorem checkCache_frame_witness :
    checkCache id 0 demoSession "/irma/session/C/proofs" [1]
      = (0, [], { demoSession with responseCache := emptyResponseCache }) :=
  (checkCache_frame id 0 demoSession "/irma/session/C/proofs" [1]).1
    (by intro h; exact absurd h.2.1 (by simp [demoSession, emptyResponseCache]))

/-- C4 (amended): `pairingCompleted` changes the status only from PAIRING
to CONNECTED (a §4.1 edge), returning an error and the unchanged session
otherwise; the expiry sweep and the Redis load path call
`setStatus(TIMEOUT)` only on non-terminal sessions (again a §4.1 edge) and
leave terminal sessions' status untouched; `fail`, however, sets the
status to CANCELLED unconditionally — a §4.1 edge only when the previous
status was non-terminal. -/
theorem statusTransitions_spec (now : Int) (s : SessionData) :
    (s.status.finished = true →
      (sweepStep now s = none ∨ sweepStep now s = some s)
        ∧ redisClientGetExpire now s = s
        ∧ pairingCompleted s = (some "Pairing was not enabled", s))
    ∧ (∀ s', sweepStep now s = some s' →
        s' = s ∨ (s'.status = ServerStatus.timeout
          ∧ allowedEdge s.status s'.status = true))
    ∧ (redisClientGetExpire now s = s
        ∨ ((redisClientGetExpire now s).status = ServerStatus.timeout
          ∧ allowedEdge s.status (redisClientGetExpire now s).status = true))
    ∧ (s.status = ServerStatus.pairing →
        pairingCompleted s = (none, setStatus s ServerStatus.connected)
          ∧ allowedEdge s.status ServerStatus.connected = true)
    ∧ (s.status ≠ ServerStatus.pairing →
        pairingCompleted s = (some "Pairing was not enabled", s))
    ∧ (fail s).status = ServerStatus.cancelled
    ∧ (s.status.finished = false →
        allowedEdge s.status (fail s).status = true) := by
  have hedge : ∀ a : ServerStatus, a.finished = false →
      allowedEdge a ServerStatus.timeout = true := by
    intro a ha
    cases a <;> simp_all [allowedEdge, ServerStatus.finished]
  refine ⟨?_, ?_, ?_, ?_, ?_, ?_, ?_⟩
  · intro hf
    refine ⟨?_, ?_, ?_⟩
    · unfold sweepStep
      split_ifs with h1
      · exact Or.inl rfl
      · exact Or.inr rfl
    · unfold redisClientGetExpire
      rw [if_neg (by simp [hf])]
    · unfold pairingCompleted
      rw [if_neg (by intro h; rw [h] at hf; exact absurd hf (by decide))]
  · intro s' hs'
    unfold sweepStep at hs'
    split_ifs at hs' with h1 h2
    · obtain rfl : setStatus (markAlive now s) ServerStatus.timeout = s' :=
        Option.some.inj hs'
      refine Or.inr ⟨rfl, ?_⟩
      have hf : s.status.finished = false := by
        cases hsf : s.status.finished
        · rfl
        · exact absurd hsf h2
      exact hedge s.status hf
    · exact Or.inl (Option.some.inj hs').symm
  · unfold redisClientGetExpire
    split_ifs with h1
    · refine Or.inr ⟨rfl, ?_⟩
      have hf : s.status.finished = false := by
        cases hsf : s.status.finished
        · rfl
        · exact absurd hsf h1.2
      exact hedge s.status hf
    · exact Or.inl rfl
  · intro hp
    constructor
    · unfold pairingCompleted
      rw [if_pos hp]
    · rw [hp]
      rfl
  · intro hp
    unfold pairingCompleted
    rw [if_neg hp]
  · rfl
  · intro hf
    cases hst : s.status <;>
      simp_all [fail, setStatus, allowedEdge, ServerStatus.finished]

/-- A session that has already reached the terminal status DONE. -/
def doneSession : SessionData :=
  { demoSession with
    status := ServerStatus.done
    resultStatus := ServerStatus.done }

/-- Counterexample to C4 as stated: `fail` moves a session whose status is
the terminal DONE to CANCELLED, which is not an edge of the §4.1 state
machine. -/
theorem fail_done_counterexample :
    doneSession.status = ServerStatus.done
    ∧ (fail doneSession).status = ServerStatus.cancelled
    ∧ allowedEdge doneSession.status (fail doneSession).status = false := by
  refine ⟨rfl, rfl, by decide⟩

/-- A session in status PAIRING. -/
def pairingSession : SessionData :=
  { demoSession with
    status := ServerStatus.pairing
    resultStatus := ServerStatus.pairing }

/-- Witness for C4 (amended): completing the pairing of a PAIRING session
follows the PAIRING → CONNECTED edge, and a terminal session is left
unchanged by the sweep, the Redis load path, and `pairingCompleted`. -/
theorem statusTransitions_spec_witness :
    (pairingCompleted pairingSession
        = (none, setStatus pairingSession ServerStatus.connected)
      ∧ allowedEdge pairingSession.status ServerStatus.connected = true)
    ∧ redisClientGetExpire 0 doneSession = doneSession :=
  ⟨(statusTransitions_spec 0 pairingSession).2.2.2.1 rfl,
   ((statusTransitions_spec 0 doneSession).1 rfl).2.1⟩

/-- A freshly created INITIALIZED session whose requestor set a
`ClientTimeout` of 601 seconds, above `2 * maxSessionLifetime = 600` s. -/
def longTimeoutSession : SessionData :=
  { demoSession with clientTimeout := 601 }

/-- Counterexample to C5 as stated: for an INITIALIZED session with
`ClientTimeout = 601` s, `redisSessionStore.add` applies a TTL of 601 s to
both keys — the raw `ClientTimeout`, not
`min(ClientTimeout, 2 * maxSessionLifetime) = 600` s. -/
theorem redisAddTTL_counterexample :
    longTimeoutSession.status = ServerStatus.initialized
    ∧ (redisAdd longTimeoutSession).tokenTTL = 601 * second
    ∧ (redisAdd longTimeoutSession).sessionTTL = 601 * second
    ∧ (redisAdd longTimeoutSession).tokenTTL
        ≠ min (601 * second) (2 * maxSessionLifetime) := by
  refine ⟨rfl, rfl, rfl, by decide⟩

/-- C5 (amended): the TTL applied by the remote store's `add` to both Redis
keys (token pointer and session payload) is `maxSessionLifetime` when the
session status is terminal, `ClientTimeout` seconds when the status is
INITIALIZED and `ClientTimeout` is nonzero, and `2 * maxSessionLifetime`
otherwise (including INITIALIZED with `ClientTimeout = 0`). -/
theorem redisAdd_ttl_spec (s : SessionData) :
    (redisAdd s).tokenTTL = redisAddTTL s
    ∧ (redisAdd s).sessionTTL = redisAddTTL s
    ∧ redisAddTTL s =
        (if s.status.finished then maxSessionLifetime
         else if s.status = ServerStatus.initialized ∧ s.clientTimeout ≠ 0 then
           s.clientTimeout * second
         else 2 * maxSessionLifetime) := by
  refine ⟨rfl, rfl, ?_⟩
  unfold redisAddTTL
  by_cases hf : s.status.finished = true
  · have hni : ¬ (s.status = ServerStatus.initialized ∧ s.clientTimeout ≠ 0) := by
      rintro ⟨h1, _⟩
      rw [h1] at hf
      exact absurd hf (by decide)
    rw [if_neg hni, if_pos hf, if_pos hf]
  · have hf' : ¬ s.status.finished = true := hf
    by_cases hi : s.status = ServerStatus.initialized ∧ s.clientTimeout ≠ 0
    · rw [if_pos hi, if_neg hf', if_pos hi]
    · rw [if_neg hi, if_neg hf, if_neg hf', if_neg hi]

/-- C6: the remote store's `update` persists the session's state (via
`add`) exactly when the session holds a lock whose remaining TTL is
nonzero; when the lock is absent, the TTL cannot be checked, or the TTL is
zero, `update` returns an error and performs no write. -/
theorem redisUpdate_lock_guard (lock : LockState) (s : SessionData) :
    (redisUpdate lock s = Except.ok (redisAdd s) ↔ lockLive lock = true)
    ∧ (lockLive lock = false →
        ∃ msg, redisUpdate lock s = Except.error msg) := by
  cases lock with
  | absent => simp [redisUpdate, lockLive]
  | checkFails => simp [redisUpdate, lockLive]
  | held ttl =>
      by_cases h : ttl = 0
      · subst h
        simp [redisUpdate, lockLive]
      · simp [redisUpdate, lockLive, h]

/-- Witness for C6: a live lock of 300 ms persists via `add`, an absent
lock yields an error. -/
theorem redisUpdate_lock_guard_witness :
    redisUpdate (LockState.held 300) demoSession
        = Except.ok (redisAdd demoSession)
    ∧ ∃ msg, redisUpdate LockState.absent demoSession = Except.error msg :=
  ⟨(redisUpdate_lock_guard (LockState.held 300) demoSession).1.mpr (by decide),
   (redisUpdate_lock_guard LockState.absent demoSession).2 (by decide)⟩

lemma sweepStep_tokens (now : Int) (s x : SessionData)
    (h : sweepStep now s = some x) :
    x.requestorToken = s.requestorToken ∧ x.clientToken = s.clientToken := by
  unfold sweepStep at h
  split_ifs at h with h1 h2
  · obtain rfl := Option.some.inj h
    exact ⟨rfl, rfl⟩
  · obtain rfl := Option.some.inj h
    exact ⟨rfl, rfl⟩

/-- C7: in the memory store's expiry sweep, the effective timeout of a
session is `ClientTimeout` seconds when it is INITIALIZED with nonzero
`ClientTimeout` and `maxSessionLifetime` otherwise; a session whose
`LastActive` plus this timeout lies before `now` is transitioned to
TIMEOUT (and marked alive) if non-terminal, and deleted from both token
indexes if already terminal; an unexpired session is kept unchanged. -/
theorem deleteExpired_sweep_spec (now : Int) (store : List SessionData)
    (s : SessionData) (hmem : s ∈ store)
    (huniq : ∀ x ∈ store,
      (x.requestorToken = s.requestorToken ∨ x.clientToken = s.clientToken) →
        x = s) :
    (sweepTimeout s
        = (if s.status = ServerStatus.initialized ∧ s.clientTimeout ≠ 0 then
            s.clientTimeout * second
          else maxSessionLifetime))
    ∧ (s.lastActive + sweepTimeout s < now → s.status.finished = false →
        setStatus (markAlive now s) ServerStatus.timeout
          ∈ deleteExpired now store)
    ∧ (s.lastActive + sweepTimeout s < now → s.status.finished = true →
        ∀ x ∈ deleteExpired now store,
          x.requestorToken ≠ s.requestorToken
            ∧ x.clientToken ≠ s.clientToken)
    ∧ (¬ s.lastActive + sweepTimeout s < now → s ∈ deleteExpired now store) := by
  refine ⟨rfl, ?_, ?_, ?_⟩
  · intro h1 h2
    refine List.mem_filterMap.mpr ⟨s, hmem, ?_⟩
    unfold sweepStep
    rw [if_pos h1, if_pos (by simp [h2])]
  · intro h1 h2 x hx
    obtain ⟨y, hy, hstep⟩ := List.mem_filterMap.mp hx
    have htok := sweepStep_tokens now y x hstep
    have hne : y ≠ s := by
      rintro rfl
      rw [show sweepStep now y = none by
        unfold sweepStep
        rw [if_pos h1, if_neg (by simp [h2])]] at hstep
      exact Option.noConfusion hstep
    constructor
    · intro heq
      exact hne (huniq y hy (Or.inl (htok.1.symm.trans heq)))
    · intro heq
      exact hne (huniq y hy (Or.inr (htok.2.symm.trans heq)))
  · intro h1
    refine List.mem_filterMap.mpr ⟨s, hmem, ?_⟩
    unfold sweepStep
    rw [if_neg h1]

/-- An INITIALIZED session with `ClientTimeout = 60` s, last active at 0. -/
def expiredInitSession : SessionData :=
  { demoSession with clientTimeout := 60 }

/-- Witness for C7: 61 s after its last activity, an INITIALIZED session
with a 60 s `ClientTimeout` is transitioned to TIMEOUT by the sweep. -/
theorem deleteExpired_sweep_spec_witness :
    setStatus (markAlive (61 * second) expiredInitSession)
        ServerStatus.timeout
      ∈ deleteExpired (61 * second) [expiredInitSession] :=
  ((deleteExpired_sweep_spec (61 * second) [expiredInitSession]
      expiredInitSession (by simp)
      (by intro x hx _; simpa using hx)).2.1)
    (by decide) (by decide)

/-- C8: the `ClientSessionRequest` built by `getClientRequest` carries the
underlying session request exactly when the session's pairing method is
`none`; with method `pin` the request payload is omitted, and
`updateFrontendOptions` with method `pin` stores the freshly generated
pairing code in the session options — while failing whenever the session
status is not INITIALIZED. -/
theorem clientRequest_pairing_spec (s : SessionData) (newCode : String) :
    ((getClientRequest s).request.isSome
      ↔ s.options.pairingMethod = pairingMethodNone)
    ∧ (s.options.pairingMethod = pairingMethodNone →
        (getClientRequest s).request = some (getRequest s.request))
    ∧ (s.options.pairingMethod = pairingMethodPin →
        (getClientRequest s).request = none)
    ∧ (s.status = ServerStatus.initialized →
        updateFrontendOptions s pairingMethodPin newCode
          = Except.ok
              ({ s.options with
                  pairingCode := newCode, pairingMethod := pairingMethodPin },
               { s with options :=
                  { s.options with
                      pairingCode := newCode,
                      pairingMethod := pairingMethodPin } }))
    ∧ (s.status ≠ ServerStatus.initialized → ∀ m c,
        ∃ e, updateFrontendOptions s m c = Except.error e) := by
  refine ⟨?_, ?_, ?_, ?_, ?_⟩
  · unfold getClientRequest
    by_cases h : s.options.pairingMethod = pairingMethodNone
    · simp [h]
    · simp [h]
  · intro h
    unfold getClientRequest
    simp [h]
  · intro h
    unfold getClientRequest
    rw [if_neg (by rw [h]; decide)]
  · intro h
    unfold updateFrontendOptions
    rw [if_neg (by simp [h]), if_neg (by decide), if_neg (by decide),
      if_pos rfl]
  · intro h m c
    unfold updateFrontendOptions
    rw [if_pos h]
    exact ⟨_, rfl⟩

/-- Witness for C8: on a fresh INITIALIZED session with pairing method
`none` the request is attached, and requesting pairing method `pin` with
the generated code `"12345678"` stores that code. -/
theorem clientRequest_pairing_spec_witness :
    (getClientRequest demoSession).request
        = some (getRequest demoSession.request)
    ∧ updateFrontendOptions demoSession pairingMethodPin "12345678"
        = Except.ok
            ({ demoSession.options with
                pairingCode := "12345678", pairingMethod := pairingMethodPin },
             { demoSession with options :=
                { demoSession.options with
                    pairingCode := "12345678",
                    pairingMethod := pairingMethodPin } }) :=
  ⟨(clientRequest_pairing_spec demoSession "12345678").2.1 rfl,
   (clientRequest_pairing_spec demoSession "12345678").2.2.2.1 rfl⟩

/-- C9: the client-auth (pairing) middleware invokes the inner handler
exactly when the session status is CONNECTED and the request's
`Authorization` header equals the session's `ClientAuth`; it rejects with
`pairingRequired` in status PAIRING, with `unexpectedRequest` in any other
non-CONNECTED status, and with `irmaUnauthorized` when CONNECTED but the
header differs from `ClientAuth`. -/
theorem pairingMiddleware_gate_spec (s : SessionData) (auth : String) :
    (pairingMiddleware s auth = MiddlewareResult.invokeHandler
      ↔ (s.status = ServerStatus.connected ∧ s.clientAuth = auth))
    ∧ (s.status = ServerStatus.pairing →
        pairingMiddleware s auth
          = MiddlewareResult.reject ServerError.pairingRequired)
    ∧ (s.status ≠ ServerStatus.pairing → s.status ≠ ServerStatus.connected →
        pairingMiddleware s auth
          = MiddlewareResult.reject ServerError.unexpectedRequest)
    ∧ (s.status = ServerStatus.connected → s.clientAuth ≠ auth →
        pairingMiddleware s auth
          = MiddlewareResult.reject ServerError.irmaUnauthorized) := by
  refine ⟨?_, ?_, ?_, ?_⟩
  · unfold pairingMiddleware
    split_ifs with h1 h2 h3
    · constructor
      · intro h
        exact absurd h (by decide)
      · rintro ⟨hc, -⟩
        rw [hc] at h1
        exact absurd h1 (by decide)
    · constructor
      · intro h
        exact absurd h (by decide)
      · rintro ⟨hc, -⟩
        exact absurd hc h2
    · constructor
      · intro h
        exact absurd h (by decide)
      · rintro ⟨-, ha⟩
        exact absurd ha h3
    · constructor
      · intro _
        exact ⟨not_not.mp h2, not_not.mp h3⟩
      · intro _
        rfl
  · intro h
    unfold pairingMiddleware
    rw [if_pos h]
  · intro h1 h2
    unfold pairingMiddleware
    rw [if_neg h1, if_pos h2]
  · intro h1 h2
    unfold pairingMiddleware
    rw [if_neg (by rw [h1]; decide), if_neg (by rw [h1]; simp), if_pos h2]

/-- A CONNECTED session (cf. the happy path after version negotiation). -/
def connectedSession : SessionData :=
  { demoSession with
    status := ServerStatus.connected
    resultStatus := ServerStatus.connected }

/-- Witness for C9: with matching `Authorization` header the handler runs;
in PAIRING the middleware rejects with `pairingRequired`. -/
theorem pairingMiddleware_gate_spec_witness :
    pairingMiddleware connectedSession "A234567890123456789012345"
        = MiddlewareResult.invokeHandler
    ∧ pairingMiddleware pairingSession "A234567890123456789012345"
        = MiddlewareResult.reject ServerError.pairingRequired :=
  ⟨(pairingMiddleware_gate_spec connectedSession
      "A234567890123456789012345").1.mpr ⟨rfl, rfl⟩,
   (pairingMiddleware_gate_spec pairingSession
      "A234567890123456789012345").2.1 rfl⟩

end IrmaServer
